import Mathlib

/-!
Verification of the HTTPServer repository (src/HTTPServer.py) against its
natural-language specification.

The embedding below models the byte stream of one connection as a `List Nat`
of byte values, the filesystem as an association list from path strings to
file contents, and each Python function of the source by a Lean function of
the same name.  Python exceptions that the source catches are modelled by
the explicit error branches of the corresponding Lean definitions.
-/

set_option maxRecDepth 10000

abbrev Bytes := List Nat

/-- Byte codes of the characters of an ASCII string literal. -/
def strBytes (s : String) : Bytes := s.data.map Char.toNat

/-- Python `bytes.strip` / `str.strip` whitespace set: space, tab, LF, VT, FF, CR. -/
def isPySpace (b : Nat) : Bool := b = 32 || b = 9 || b = 10 || b = 11 || b = 12 || b = 13

/-- Python `.strip()`: drop leading and trailing whitespace bytes. -/
def pyStrip (l : Bytes) : Bytes :=
  ((l.dropWhile isPySpace).reverse.dropWhile isPySpace).reverse

/-- Python `.decode("us-ascii")`: succeeds iff every byte is below 128. -/
def decodeAscii (l : Bytes) : Option Bytes :=
  if l.all (fun b => decide (b < 128)) then some l else none

/-- Python `rfile.readline()`: everything up to and including the first LF,
or the whole rest of the stream if no LF remains.  Returns (line, rest). -/
def readline : Bytes → Bytes × Bytes
  | [] => ([], [])
  | b :: rest =>
    if b = 10 then ([b], rest)
    else
      let r := readline rest
      (b :: r.1, r.2)

/-- Python `str.split(sep)` with a one-character separator: splits at every
occurrence, keeping empty pieces. -/
def splitOnByte (sep : Nat) : Bytes → List Bytes
  | [] => [[]]
  | b :: rest =>
    match splitOnByte sep rest with
    | [] => [[]]
    | h :: t => if b = sep then [] :: h :: t else (b :: h) :: t

/-- Python `str.split(": ", 1)` when it yields two pieces: split at the first
occurrence of the two-byte sequence colon-space.  `none` when the sequence
does not occur (in the source the two-element unpacking then raises). -/
def splitFirstColonSpace : Bytes → Option (Bytes × Bytes)
  | [] => none
  | [_] => none
  | b1 :: b2 :: rest =>
    if b1 = 58 ∧ b2 = 32 then some ([], rest)
    else (splitFirstColonSpace (b2 :: rest)).map (fun kv => (b1 :: kv.1, kv.2))

/-- Whether the two-byte sequence colon-space occurs in the list. -/
def hasColonSpace : Bytes → Bool
  | [] => false
  | [_] => false
  | b1 :: b2 :: rest => (decide (b1 = 58) && decide (b2 = 32)) || hasColonSpace (b2 :: rest)

/-- Python `s.startswith(pre)`. -/
def startswith : Bytes → Bytes → Bool
  | _, [] => true
  | [], _ :: _ => false
  | s :: ss, p :: ps => decide (s = p) && startswith ss ps

/-- Whether `pat` occurs as a contiguous substring. -/
def occursIn (pat : Bytes) : Bytes → Bool
  | [] => pat.isEmpty
  | b :: rest => startswith (b :: rest) pat || occursIn pat rest

/-- Digit run of Python `int()`, allowing single underscores between digits. -/
def digitsCore : Nat → Bytes → Option Nat
  | acc, [] => some acc
  | acc, c :: rest =>
    if 48 ≤ c ∧ c ≤ 57 then digitsCore (acc * 10 + (c - 48)) rest
    else if c = 95 then
      match rest with
      | [] => none
      | d :: rest2 => if 48 ≤ d ∧ d ≤ 57 then digitsCore (acc * 10 + (d - 48)) rest2 else none
    else none

/-- Nonempty digit run starting with a digit. -/
def digitsVal : Bytes → Option Nat
  | [] => none
  | c :: rest => if 48 ≤ c ∧ c ≤ 57 then digitsCore (c - 48) rest else none

/-- Python `int(str)` on an ASCII string: optional surrounding whitespace,
optional sign, then digits.  `none` models the ValueError branch. -/
def pyInt (b : Bytes) : Option Int :=
  match pyStrip b with
  | 43 :: rest => (digitsVal rest).map Int.ofNat
  | 45 :: rest => (digitsVal rest).map (fun n => -(Int.ofNat n))
  | s => (digitsVal s).map Int.ofNat

/-- Python `rfile.read(n)` on the remaining stream: a non-negative count
returns up to `n` bytes (fewer only when the stream ends first); a count of
exactly `-1` reads to end of stream; any count below `-1` raises ValueError
in `io.BufferedReader.read`, modelled as `none`.  On success returns
(data, rest). -/
def pyReadBody (n : Int) (s : Bytes) : Option (Bytes × Bytes) :=
  if n < -1 then none
  else if n = -1 then some (s, [])
  else some (s.take n.toNat, s.drop n.toNat)

abbrev Dict := List (Bytes × Bytes)

/-- Python `d[k]` as an option (the source dict has unique keys by
construction, see `dictInsert`). -/
def dictGet (d : Dict) (k : Bytes) : Option Bytes :=
  (d.find? (fun kv => kv.1 == k)).map Prod.snd

/-- Python `d[k] = v`: replace in place on an existing key (keeping its
position, as a Python dict does), otherwise append. -/
def dictInsert (d : Dict) (k v : Bytes) : Dict :=
  match d with
  | [] => [(k, v)]
  | kv :: rest => if kv.1 == k then (k, v) :: rest else kv :: dictInsert rest k v

/-- One header line: `header_line.strip().decode("us-ascii").split(": ", 1)`
unpacked into key and value; `none` models the exception branches
(UnicodeDecodeError or the failing two-element unpacking). -/
def parseHeaderLine (line : Bytes) : Option (Bytes × Bytes) :=
  match decodeAscii (pyStrip line) with
  | none => none
  | some s => splitFirstColonSpace s

/-- The header loop `for header_line in self.rfile: ...` of
`HTTPRequestHandler.handle`, reading the stream byte by byte and assembling
lines exactly as file iteration yields them (terminator included, a final
incomplete line without LF included, iteration ending at end of stream).
`.error acc` is the exception branch, carrying the headers bound so far;
`.ok (acc, rest)` carries the headers and the unread rest of the stream. -/
def readHeadersAux : Bytes → Bytes → Dict → Except Dict (Dict × Bytes)
  | [], [], acc => .ok (acc, [])
  | [], la :: lrest, acc =>
    match parseHeaderLine ((la :: lrest).reverse) with
    | none => .error acc
    | some kv => .ok (dictInsert acc kv.1 kv.2, [])
  | b :: rest, lineAcc, acc =>
    if b = 10 then
      let line := (b :: lineAcc).reverse
      if line = [13, 10] then .ok (acc, rest)
      else
        match parseHeaderLine line with
        | none => .error acc
        | some kv => readHeadersAux rest [] (dictInsert acc kv.1 kv.2)
    else readHeadersAux rest (b :: lineAcc) acc

/-- Result of the first `try` block of `HTTPRequestHandler.handle`.  `ok`
carries the bound variables and unread stream.  `failEarly` is an exception
before `request_method` was bound (bad request line): the later dispatch
then raises NameError at once.  `failLate` is an exception after the request
line was parsed (bad header line, unparsable Content-Length, or the
ValueError of a read size below -1): dispatch then runs with the headers
bound so far and `content_bytes` unbound. -/
inductive ParseResult where
  | ok (method uri version : Bytes) (headers : Dict) (content : Option Bytes) (rest : Bytes)
  | failEarly
  | failLate (method uri version : Bytes) (headers : Dict)
deriving DecidableEq

/-- The parsing half of `HTTPRequestHandler.handle` (lines 62-77 of the
source): request line, header loop, Content-Length driven body read. -/
def parsePhase (input : Bytes) : ParseResult :=
  let rl := readline input
  match decodeAscii (pyStrip rl.1) with
  | none => .failEarly
  | some requestLine =>
    match splitOnByte 32 requestLine with
    | [request_method, request_uri, http_version] =>
      match readHeadersAux rl.2 [] [] with
      | .error header_params => .failLate request_method request_uri http_version header_params
      | .ok (header_params, rest1) =>
        match dictGet header_params (strBytes "Content-Length") with
        | none => .ok request_method request_uri http_version header_params none rest1
        | some clv =>
          match pyInt clv with
          | none => .failLate request_method request_uri http_version header_params
          | some n =>
            match pyReadBody n rest1 with
            | none => .failLate request_method request_uri http_version header_params
            | some (content_bytes, rest2) =>
              .ok request_method request_uri http_version header_params
                (some content_bytes) rest2
    | _ => .failEarly

/-- The global `STATUS_REASONS` table of the source. -/
def STATUS_REASONS : Nat → Option String
  | 200 => some "OK"
  | 201 => some "Created"
  | 204 => some "No Content"
  | 400 => some "Bad Request"
  | 404 => some "Not Found"
  | 415 => some "Unsupported Media Type"
  | 500 => some "Internal Server Error"
  | 501 => some "Not Implemented"
  | _ => none

/-- Status line built by `send_http_response`.  The lookup `.getD ""` is only
ever reached at the codes of the table (an unknown code raises KeyError in
the source and is never passed by any call site). -/
def statusLineBytes (http_version : String) (status_code : Nat) : Bytes :=
  strBytes (http_version ++ " " ++ toString status_code ++ " "
    ++ (STATUS_REASONS status_code).getD "" ++ "\r\n")

/-- Python truthiness of `content_bytes`: `None` and `b""` are falsy. -/
def hasBody : Option Bytes → Bool
  | none => false
  | some b => !b.isEmpty

def bodyBytes : Option Bytes → Bytes
  | none => []
  | some b => b

/-- The f-string rendering of `content_type` (Python renders `None` as the
four characters `None` when interpolated). -/
def ctRender : Option Bytes → Bytes
  | none => strBytes "None"
  | some c => c

/-- `send_http_response` (source lines 22-43): status line; Content-Type and
Content-Length lines only under the truthiness of `content_bytes`; blank
line; then the body bytes under the same condition.  Returns the bytes
written to `wfile` in the one `wfile.write` call. -/
def send_http_response (http_version : String) (status_code : Nat)
    (content_bytes : Option Bytes) (content_type : Option Bytes) : Bytes :=
  statusLineBytes http_version status_code
  ++ (if hasBody content_bytes then
        strBytes "Content-Type: " ++ ctRender content_type ++ strBytes "\r\n"
        ++ strBytes "Content-Length: "
        ++ strBytes (toString (bodyBytes content_bytes).length) ++ strBytes "\r\n"
      else [])
  ++ strBytes "\r\n"
  ++ (if hasBody content_bytes then bodyBytes content_bytes else [])

/-- `generate_error_body` (source lines 45-54): the triple-quoted HTML
f-string, with the status code and the reason interpolated, encoded as
us-ascii.  The reason is kept as bytes so that request data (a header name)
can be spliced into it, as `handle_put` does. -/
def generate_error_body (status_code : Nat) (reason : Bytes) : Bytes :=
  strBytes "<html>\n  <body>\n    <img src=\"https://http.cat/"
  ++ strBytes (toString status_code)
  ++ strBytes "\">\n    <p>"
  ++ reason
  ++ strBytes "</p>\n  </body>\n</html>\n    "

/-- A response as handed to `send_http_response` by the handler methods:
status code, optional `content_bytes`, optional `content_type`. -/
structure HTTPResponse where
  status : Nat
  contentBytes : Option Bytes
  contentType : Option Bytes
deriving DecidableEq

def serializeResponse (r : HTTPResponse) : Bytes :=
  send_http_response "HTTP/1.1" r.status r.contentBytes r.contentType

/-- The 400 response of the first `except` block of `handle`.  Byte 39 is
the apostrophe; none occurs in this reason. -/
def resp400 : HTTPResponse :=
  ⟨400, some (generate_error_body 400 (strBytes "You sent a bad request to the server!")),
    some (strBytes "text/html")⟩

/-- The 500 response of the second `except` block of `handle`. -/
def resp500 : HTTPResponse :=
  ⟨500, some (generate_error_body 500
      (strBytes "Oh!! My God!! The server broke and there are no monkeys to fix it!")),
    some (strBytes "text/html")⟩

/-- The 404 response of `check_file_exists`; byte 39 is the apostrophe of
the contraction in the source reason string. -/
def resp404 : HTTPResponse :=
  ⟨404, some (generate_error_body 404
      (strBytes "Oh!! My god!! The server couldn" ++ [39]
        ++ strBytes "t find the requested resource!")),
    some (strBytes "text/html")⟩

/-- The 415 response of `handle_post`; byte 39 is the apostrophe of the
contraction in the source reason string. -/
def resp415 : HTTPResponse :=
  ⟨415, some (generate_error_body 415
      (strBytes "The server does not support POST for requests that aren" ++ [39]
        ++ strBytes "t of type text/plain according to the homework rubric.")),
    some (strBytes "text/html")⟩

/-- The 501 response of `handle_put`; bytes 96 are the backticks around the
interpolated header name in the source reason string. -/
def resp501 (param : Bytes) : HTTPResponse :=
  ⟨501, some (generate_error_body 501
      ([96] ++ param ++ [96]
        ++ strBytes " HTTP header is not supported by this server, and the HTTP/1.1 spec does not allow us to ignore it for PUT requests.")),
    some (strBytes "text/html")⟩

/-- The filesystem collaborator: a flat map from path string to the contents
of a regular file (`exists() and is_file()` is membership here). -/
abbrev FS := List (Bytes × Bytes)

def fsGet (fs : FS) (p : Bytes) : Option Bytes :=
  (fs.find? (fun kv => kv.1 == p)).map Prod.snd

/-- `open(path, "wb")` followed by a full write: truncating create-or-overwrite. -/
def fsWrite (fs : FS) (p b : Bytes) : FS :=
  match fs with
  | [] => [(p, b)]
  | kv :: rest => if kv.1 == p then (p, b) :: rest else kv :: fsWrite rest p b

/-- `open(path, "ab")` followed by a write: create-or-append. -/
def fsAppend (fs : FS) (p b : Bytes) : FS :=
  match fs with
  | [] => [(p, b)]
  | kv :: rest => if kv.1 == p then (kv.1, kv.2 ++ b) :: rest else kv :: fsAppend rest p b

/-- `Path.unlink()`. -/
def fsDelete (fs : FS) (p : Bytes) : FS :=
  fs.filter (fun kv => !(kv.1 == p))

/-- `Path("." + request_uri)`, kept as the raw concatenated string. -/
def pathOf (request_uri : Bytes) : Bytes := strBytes "." ++ request_uri

/-- The component after the last slash (the `name` of the path). -/
def lastComponent (p : Bytes) : Bytes :=
  (splitOnByte 47 p).getLastD []

/-- `Path.suffix`: from the last dot of the final component, provided that
dot is neither its first nor its last character. -/
def pySuffix (p : Bytes) : Bytes :=
  let nm := lastComponent p
  match (nm.reverse.findIdx? (fun b => b == 46)) with
  | none => []
  | some j =>
    let i := nm.length - 1 - j
    if 0 < i ∧ i < nm.length - 1 then nm.drop i else []

/-- The extension dispatch of `handle_get` (lines 161-168): `.txt`,
the three image extensions, or generic binary content. -/
def contentTypeFor (extension : Bytes) : Bytes :=
  if extension = strBytes ".txt" then strBytes "text/plain"
  else if extension = strBytes ".png" ∨ extension = strBytes ".gif"
      ∨ extension = strBytes ".jpeg" then strBytes "image/" ++ extension.drop 1
  else strBytes "application/octet-stream"

/-- `check_file_exists` (lines 99-110): resolves the path, reports existence
and, when `send_error` and the file is absent, emits the 404 response.
Returns (request_path, exists, responses written). -/
def check_file_exists (request_uri : Bytes) (send_error : Bool) (fs : FS) :
    Bytes × Bool × List HTTPResponse :=
  let request_path := pathOf request_uri
  let ex := (fsGet fs request_path).isSome
  (request_path, ex, if !ex && send_error then [resp404] else [])

/-- `handle_get` (lines 157-168). -/
def handle_get (request_uri : Bytes) (fs : FS) : List HTTPResponse × FS :=
  let c := check_file_exists request_uri true fs
  if c.2.1 then
    (c.2.2 ++ [⟨200, some ((fsGet fs c.1).getD []),
        some (contentTypeFor (pySuffix c.1))⟩], fs)
  else (c.2.2, fs)

/-- `handle_delete` (lines 112-117). -/
def handle_delete (request_uri : Bytes) (fs : FS) : List HTTPResponse × FS :=
  let c := check_file_exists request_uri true fs
  if c.2.1 then (c.2.2 ++ [⟨204, none, none⟩], fsDelete fs c.1)
  else (c.2.2, fs)

def SUPPORTED_CONTENT_HEADERS : List Bytes :=
  [strBytes "Content-Type", strBytes "Content-Length"]

/-- The test of the header-validation loop of `handle_put` (line 122). -/
def isUnsupportedContentHeader (param : Bytes) : Bool :=
  startswith param (strBytes "Content-") && !(SUPPORTED_CONTENT_HEADERS.contains param)

/-- `handle_put` (lines 119-136): 501 at the first unrecognized `Content-*`
header (dict iteration order is insertion order); otherwise truncating
write and 204 or 201 by prior existence. -/
def handle_put (request_uri : Bytes) (content_bytes : Bytes) (header_params : Dict)
    (fs : FS) : List HTTPResponse × FS :=
  match (header_params.map Prod.fst).find? isUnsupportedContentHeader with
  | some param => ([resp501 param], fs)
  | none =>
    let c := check_file_exists request_uri false fs
    (if c.2.1 then [⟨204, none, none⟩] else [⟨201, none, none⟩],
      fsWrite fs c.1 content_bytes)

/-- `handle_post` (lines 138-155): 415 unless the content type is exactly
`text/plain`; append and 204 on an existing file, create and 201 otherwise. -/
def handle_post (request_uri : Bytes) (content_bytes : Bytes) (content_type : Bytes)
    (fs : FS) : List HTTPResponse × FS :=
  if content_type ≠ strBytes "text/plain" then ([resp415], fs)
  else
    let c := check_file_exists request_uri false fs
    if c.2.1 then ([⟨204, none, none⟩], fsAppend fs c.1 content_bytes)
    else ([⟨201, none, none⟩], fsWrite fs c.1 content_bytes)

/-- The dispatch `try` block of `handle` (lines 84-97).  `content` is the
binding state of `content_bytes` (`none` = unbound, its use then raises
NameError); a missing `Content-Type` key in the POST argument list raises
KeyError; either exception is caught by the block and answered with the
500 response. -/
def dispatchPhase (request_method request_uri : Bytes) (header_params : Dict)
    (content : Option Bytes) (fs : FS) : List HTTPResponse × FS :=
  if request_method = strBytes "GET" then handle_get request_uri fs
  else if request_method = strBytes "POST" then
    match content with
    | none => ([resp500], fs)
    | some content_bytes =>
      match dictGet header_params (strBytes "Content-Type") with
      | none => ([resp500], fs)
      | some content_type => handle_post request_uri content_bytes content_type fs
  else if request_method = strBytes "PUT" then
    match content with
    | none => ([resp500], fs)
    | some content_bytes => handle_put request_uri content_bytes header_params fs
  else if request_method = strBytes "DELETE" then handle_delete request_uri fs
  else ([], fs)

/-- `HTTPRequestHandler.handle` (lines 60-97) for one connection: the parse
`try` block, then — with no `return` in between — the dispatch `try` block.
After `failEarly` the dispatch block raises NameError on the unbound
`request_method` and answers 500; after `failLate` it dispatches with the
headers bound so far and `content_bytes` unbound.  Returns the responses
written to `wfile` in order and the final filesystem. -/
def handle (input : Bytes) (fs : FS) : List HTTPResponse × FS :=
  match parsePhase input with
  | .ok m u _ hs cb _ => dispatchPhase m u hs cb fs
  | .failEarly => ([resp400, resp500], fs)
  | .failLate m u _ hs =>
    let d := dispatchPhase m u hs none fs
    (resp400 :: d.1, d.2)

/-- All bytes the server writes on the connection for one request. -/
def handleWire (input : Bytes) (fs : FS) : Bytes :=
  ((handle input fs).1.map serializeResponse).flatten

/-! ### Helper lemmas -/

theorem fsGet_fsWrite_self (fs : FS) (p b : Bytes) : fsGet (fsWrite fs p b) p = some b := by
  induction fs with
  | nil => simp [fsGet, fsWrite, List.find?]
  | cons kv rest ih =>
    by_cases h : kv.1 == p
    · simp [fsGet, fsWrite, h, List.find?]
    · simp only [fsWrite, h, if_false, Bool.false_eq_true]
      simpa [fsGet, List.find?, h] using ih

theorem handle_get_found (request_uri : Bytes) (fs : FS) (content : Bytes)
    (h : fsGet fs (pathOf request_uri) = some content) :
    handle_get request_uri fs
      = ([⟨200, some content, some (contentTypeFor (pySuffix (pathOf request_uri)))⟩], fs) := by
  simp [handle_get, check_file_exists, h]

theorem handle_get_missing (request_uri : Bytes) (fs : FS)
    (h : fsGet fs (pathOf request_uri) = none) :
    handle_get request_uri fs = ([resp404], fs) := by
  simp [handle_get, check_file_exists, h]

/-! ### Claim C5 -/

/-- C5: for every GET request, a nonexistent target yields the 404 response;
an existing target yields a single 200 response whose body is exactly the
file contents and whose content type is `text/plain` for extension `.txt`,
`image/png`, `image/gif`, `image/jpeg` for those extensions, and
`application/octet-stream` for any other extension. -/
theorem c5_get_semantics (request_uri : Bytes) (fs : FS) :
    (fsGet fs (pathOf request_uri) = none → handle_get request_uri fs = ([resp404], fs))
    ∧ (∀ content, fsGet fs (pathOf request_uri) = some content →
        ∃ ct, handle_get request_uri fs = ([⟨200, some content, some ct⟩], fs)
          ∧ (pySuffix (pathOf request_uri) = strBytes ".txt" → ct = strBytes "text/plain")
          ∧ (pySuffix (pathOf request_uri) = strBytes ".png" → ct = strBytes "image/png")
          ∧ (pySuffix (pathOf request_uri) = strBytes ".gif" → ct = strBytes "image/gif")
          ∧ (pySuffix (pathOf request_uri) = strBytes ".jpeg" → ct = strBytes "image/jpeg")
          ∧ (pySuffix (pathOf request_uri)
                ∉ [strBytes ".txt", strBytes ".png", strBytes ".gif", strBytes ".jpeg"] →
              ct = strBytes "application/octet-stream")) := by
  refine ⟨handle_get_missing request_uri fs, ?_⟩
  intro content h
  refine ⟨contentTypeFor (pySuffix (pathOf request_uri)),
    handle_get_found request_uri fs content h, ?_, ?_, ?_, ?_, ?_⟩
  · intro he; rw [he]; decide
  · intro he; rw [he]; decide
  · intro he; rw [he]; decide
  · intro he; rw [he]; decide
  · intro he
    simp only [List.mem_cons, List.mem_singleton, not_or] at he
    obtain ⟨h1, h2, h3, h4⟩ := he
    simp [contentTypeFor, h1, h2, h3, h4]

/-- Witness for C5 at a concrete filesystem holding `./foo.txt` with two
bytes of content. -/
theorem c5_get_semantics_witness :
    handle_get (strBytes "/foo.txt") [(strBytes "./foo.txt", [104, 105])]
      = ([⟨200, some [104, 105], some (strBytes "text/plain")⟩],
          [(strBytes "./foo.txt", [104, 105])]) := by
  obtain ⟨ct, h1, h2, _⟩ :=
    (c5_get_semantics (strBytes "/foo.txt") [(strBytes "./foo.txt", [104, 105])]).2
      [104, 105] (by decide)
  rw [h2 (by decide)] at h1
  exact h1

/-! ### Claim C6 -/

/-- C6: a POST whose Content-Type header value is not exactly `text/plain`
is answered with the 415 response and the filesystem is returned unchanged
(no file created, nothing appended). -/
theorem c6_post_unsupported_media (request_uri content_bytes content_type : Bytes) (fs : FS)
    (h : content_type ≠ strBytes "text/plain") :
    handle_post request_uri content_bytes content_type fs = ([resp415], fs) := by
  simp [handle_post, h]

/-- Witness for C6: POST with content type `application/json`. -/
theorem c6_post_unsupported_media_witness :
    handle_post (strBytes "/f.txt") [104] (strBytes "application/json") [] = ([resp415], []) :=
  c6_post_unsupported_media (strBytes "/f.txt") [104] (strBytes "application/json") []
    (by decide)

/-! ### Claim C9 -/

/-- C9: a successfully parsed request whose method is outside
GET/POST/PUT/DELETE produces no dispatch action: `handle` writes no
response at all and leaves the filesystem unchanged. -/
theorem c9_unknown_method_no_response (input : Bytes) (fs : FS)
    (m u v : Bytes) (hs : Dict) (cb : Option Bytes) (rest : Bytes)
    (hok : parsePhase input = ParseResult.ok m u v hs cb rest)
    (h1 : m ≠ strBytes "GET") (h2 : m ≠ strBytes "POST")
    (h3 : m ≠ strBytes "PUT") (h4 : m ≠ strBytes "DELETE") :
    handle input fs = ([], fs) ∧ handleWire input fs = [] := by
  have hh : handle input fs = ([], fs) := by
    simp [handle, hok, dispatchPhase, h1, h2, h3, h4]
  exact ⟨hh, by simp [handleWire, hh]⟩

/-- Witness for C9: a PATCH request. -/
theorem c9_unknown_method_no_response_witness :
    handle (strBytes "PATCH / HTTP/1.1\r\n\r\n") [] = ([], [])
    ∧ handleWire (strBytes "PATCH / HTTP/1.1\r\n\r\n") [] = [] :=
  c9_unknown_method_no_response (strBytes "PATCH / HTTP/1.1\r\n\r\n") []
    (strBytes "PATCH") (strBytes "/") (strBytes "HTTP/1.1") [] none []
    (by decide) (by decide) (by decide) (by decide) (by decide)

/-! ### Claim C10 -/

/-- C10: a POST carrying a Content-Length body but no Content-Type header is
answered with the single 500 response (the KeyError of the missing header
lookup is intercepted by the catch-all), whose body is the HTML error page,
not the 415 response. -/
theorem c10_post_missing_content_type (input : Bytes) (fs : FS)
    (u v : Bytes) (hs : Dict) (b rest : Bytes)
    (hok : parsePhase input = ParseResult.ok (strBytes "POST") u v hs (some b) rest)
    (hct : dictGet hs (strBytes "Content-Type") = none) :
    handle input fs = ([resp500], fs)
    ∧ (handle input fs).1.map HTTPResponse.status = [500]
    ∧ occursIn (strBytes "<html>") (bodyBytes resp500.contentBytes) = true
    ∧ resp500.contentType = some (strBytes "text/html") := by
  have hne : strBytes "POST" ≠ strBytes "GET" := by decide
  have hh : handle input fs = ([resp500], fs) := by
    simp [handle, hok, dispatchPhase, hct, hne]
  exact ⟨hh, by rw [hh]; rfl, by decide, by decide⟩

/-- Witness for C10: POST with a two-byte body and no Content-Type header. -/
theorem c10_post_missing_content_type_witness :
    handle (strBytes "POST /f HTTP/1.1\r\nContent-Length: 2\r\n\r\nhi") [] = ([resp500], [])
    ∧ (handle (strBytes "POST /f HTTP/1.1\r\nContent-Length: 2\r\n\r\nhi") []).1.map
        HTTPResponse.status = [500]
    ∧ occursIn (strBytes "<html>") (bodyBytes resp500.contentBytes) = true
    ∧ resp500.contentType = some (strBytes "text/html") :=
  c10_post_missing_content_type (strBytes "POST /f HTTP/1.1\r\nContent-Length: 2\r\n\r\nhi") []
    (strBytes "/f") (strBytes "HTTP/1.1")
    [(strBytes "Content-Length", strBytes "2")] (strBytes "hi") []
    (by decide) (by decide)

/-! ### Claim C1 -/

/-- C1 (code bug witness): the claim says a parse failure is answered with a
single 400 response and no dispatch afterwards.  The code has no `return`
after the 400 handler: a bad request line (`GET` alone) yields a 400 and
then a 500 (NameError on the unbound `request_method` in the dispatch
block), and a bad header line yields a 400 followed by a real dispatch of
the method (here a 404 from `handle_get`). -/
theorem c1_parse_failure_double_response :
    ((handle (strBytes "GET\r\n") []).1.map HTTPResponse.status = [400, 500])
    ∧ ((handle (strBytes "GET /x HTTP/1.1\r\nBadHeader\r\n\r\n") []).1.map
        HTTPResponse.status = [400, 404]) := by
  constructor
  · rfl
  · rfl

/-! ### Claim C7 -/

theorem startswith_append (p t : Bytes) : startswith (p ++ t) p = true := by
  induction p with
  | nil => cases t <;> rfl
  | cons c p ih => simp [startswith, ih]

theorem occursIn_nil_pat (l : Bytes) : occursIn [] l = true := by
  cases l <;> simp [occursIn, startswith, List.isEmpty]

theorem occursIn_append_mid (pat a b : Bytes) : occursIn pat (a ++ pat ++ b) = true := by
  induction a with
  | nil =>
    rw [List.nil_append]
    cases pat with
    | nil => exact occursIn_nil_pat _
    | cons c p =>
      rw [List.cons_append, occursIn, ← List.cons_append, startswith_append, Bool.true_or]
  | cons x a ih =>
    rw [List.cons_append, List.cons_append, occursIn, ih, Bool.or_true]

theorem occursIn_generate_error_body (status_code : Nat) (a pat b : Bytes) :
    occursIn pat (generate_error_body status_code (a ++ pat ++ b)) = true := by
  have h := occursIn_append_mid pat
    (strBytes "<html>\n  <body>\n    <img src=\"https://http.cat/"
      ++ strBytes (toString status_code) ++ strBytes "\">\n    <p>" ++ a)
    (b ++ strBytes "</p>\n  </body>\n</html>\n    ")
  simpa [generate_error_body, List.append_assoc] using h

/-- C7: a PUT whose headers contain a name that starts with `Content-` yet
is neither `Content-Type` nor `Content-Length` is answered with the single
501 response, whose body names the offending header, and the filesystem is
returned untouched. -/
theorem c7_put_unsupported_header (request_uri content_bytes : Bytes) (hs : Dict) (fs : FS)
    (h : ∃ kv ∈ hs, isUnsupportedContentHeader kv.1 = true) :
    ∃ param, isUnsupportedContentHeader param = true
      ∧ handle_put request_uri content_bytes hs fs = ([resp501 param], fs)
      ∧ occursIn param (bodyBytes (resp501 param).contentBytes) = true := by
  have hsome : ((hs.map Prod.fst).find? isUnsupportedContentHeader).isSome := by
    rw [List.find?_isSome]
    obtain ⟨kv, hmem, hbad⟩ := h
    exact ⟨kv.1, List.mem_map.mpr ⟨kv, hmem, rfl⟩, hbad⟩
  obtain ⟨param, hfind⟩ := Option.isSome_iff_exists.mp hsome
  refine ⟨param, List.find?_some hfind, by simp [handle_put, hfind], ?_⟩
  have h2 := occursIn_generate_error_body 501 [96] param
    ([96] ++ strBytes " HTTP header is not supported by this server, and the HTTP/1.1 spec does not allow us to ignore it for PUT requests.")
  simpa [resp501, bodyBytes, List.append_assoc] using h2

/-- Witness for C7: a PUT with a `Content-Language: en` header. -/
theorem c7_put_unsupported_header_witness :
    ∃ param, isUnsupportedContentHeader param = true
      ∧ handle_put (strBytes "/f") [104] [(strBytes "Content-Language", strBytes "en")] []
          = ([resp501 param], [])
      ∧ occursIn param (bodyBytes (resp501 param).contentBytes) = true :=
  c7_put_unsupported_header (strBytes "/f") [104]
    [(strBytes "Content-Language", strBytes "en")] []
    ⟨(strBytes "Content-Language", strBytes "en"), by decide, by decide⟩

/-! ### Claim C8 -/

/-- C8: a PUT with no unrecognized `Content-*` header overwrites the target
entirely.  On a nonexistent path it answers 201, on an existing path 204;
in both cases the file afterwards holds exactly the request body (never the
prior content with the body appended), and a subsequent GET returns a 200
response whose body is exactly that request body. -/
theorem c8_put_truncates (request_uri body : Bytes) (hs : Dict) (fs : FS)
    (hok : (hs.map Prod.fst).find? isUnsupportedContentHeader = none) :
    (fsGet fs (pathOf request_uri) = none →
        (handle_put request_uri body hs fs).1.map HTTPResponse.status = [201])
    ∧ (∀ old, fsGet fs (pathOf request_uri) = some old →
        (handle_put request_uri body hs fs).1.map HTTPResponse.status = [204])
    ∧ fsGet (handle_put request_uri body hs fs).2 (pathOf request_uri) = some body
    ∧ (handle_get request_uri (handle_put request_uri body hs fs).2).1
        = [⟨200, some body, some (contentTypeFor (pySuffix (pathOf request_uri)))⟩] := by
  have hput : handle_put request_uri body hs fs
      = (if (fsGet fs (pathOf request_uri)).isSome then [⟨204, none, none⟩]
          else [⟨201, none, none⟩], fsWrite fs (pathOf request_uri) body) := by
    simp [handle_put, hok, check_file_exists]
  refine ⟨?_, ?_, ?_, ?_⟩
  · intro h; rw [hput]; simp [h]
  · intro old h; rw [hput]; simp [h]
  · rw [hput]; exact fsGet_fsWrite_self fs _ body
  · rw [hput]
    rw [handle_get_found request_uri _ body (fsGet_fsWrite_self fs _ body)]

/-! ### Claim C3 -/

theorem hasColonSpace_append : ∀ k v : Bytes, hasColonSpace (k ++ 58 :: 32 :: v) = true
  | [], _ => by simp [hasColonSpace]
  | [c], v => by simp [hasColonSpace]
  | c1 :: c2 :: k, v => by
    have ih := hasColonSpace_append (c2 :: k) v
    simp only [List.cons_append] at ih ⊢
    simp [hasColonSpace, ih]

/-- Characterization of `splitFirstColonSpace`: it fails exactly when the
colon-space sequence is absent, and on success it splits at the first
occurrence (no colon-space occurs inside the returned key). -/
theorem splitFirstColonSpace_spec : ∀ l : Bytes,
    (splitFirstColonSpace l = none → hasColonSpace l = false)
    ∧ (∀ k v, splitFirstColonSpace l = some (k, v) →
        l = k ++ 58 :: 32 :: v ∧ hasColonSpace k = false)
  | [] => by simp [splitFirstColonSpace, hasColonSpace]
  | [b] => by simp [splitFirstColonSpace, hasColonSpace]
  | b1 :: b2 :: rest => by
    have ih := splitFirstColonSpace_spec (b2 :: rest)
    by_cases h : b1 = 58 ∧ b2 = 32
    · obtain ⟨h1, h2⟩ := h
      subst h1; subst h2
      have hsp : splitFirstColonSpace (58 :: 32 :: rest) = some ([], rest) := by
        simp [splitFirstColonSpace]
      constructor
      · intro hn; rw [hsp] at hn; exact absurd hn (by simp)
      · intro k v hs
        rw [hsp] at hs
        obtain ⟨hk, hv⟩ := Prod.ext_iff.mp (Option.some.inj hs)
        subst hk; subst hv
        exact ⟨rfl, rfl⟩
    · have hb : (decide (b1 = 58) && decide (b2 = 32)) = false := by
        rcases Decidable.not_and_iff_or_not.mp h with h1 | h1 <;> simp [h1]
      constructor
      · intro hn
        simp only [splitFirstColonSpace, if_neg h] at hn
        cases hsp : splitFirstColonSpace (b2 :: rest) with
        | some kv => rw [hsp] at hn; exact absurd hn (by simp)
        | none => simp [hasColonSpace, hb, ih.1 hsp]
      · intro k v hs
        simp only [splitFirstColonSpace, if_neg h] at hs
        obtain ⟨⟨k0, v0⟩, hsplit, hkv⟩ := Option.map_eq_some.mp hs
        simp only [Prod.mk.injEq] at hkv
        obtain ⟨hk, hv⟩ := hkv
        subst hk; subst hv
        obtain ⟨heq, hkey⟩ := ih.2 k0 v0 hsplit
        refine ⟨by rw [List.cons_append, ← heq], ?_⟩
        cases k0 with
        | nil => rfl
        | cons c k1 =>
          have hc : b2 = c := by
            rw [List.cons_append] at heq
            exact (List.cons.injEq _ _ _ _ ▸ heq).1
          subst hc
          simp [hasColonSpace, hb, hkey]

/-- C3 counterexample: the claim says any header line with at least one `:`
is accepted, the space after the colon being optional, split at the first
`:`.  The source splits on the two-character sequence `": "`: the line
`Foo:bar` contains a colon yet is rejected (and a whole request carrying it
takes the malformed-header path), and `A:B: C` is split at the first
colon-space, not at the first colon. -/
theorem c3_counterexample :
    (58 ∈ strBytes "Foo:bar") ∧ parseHeaderLine (strBytes "Foo:bar\r\n") = none
    ∧ parsePhase (strBytes "GET /x HTTP/1.1\r\nFoo:bar\r\n\r\n")
        = ParseResult.failLate (strBytes "GET") (strBytes "/x") (strBytes "HTTP/1.1") []
    ∧ parseHeaderLine (strBytes "A:B: C\r\n") = some (strBytes "A:B", strBytes "C") := by
  refine ⟨by decide, by decide, by decide, by decide⟩

/-- C3 amended: a header line is accepted iff, after stripping surrounding
whitespace, it contains the two-byte sequence colon-space (the space is
mandatory); it is then split at the first such occurrence into name and
value; any line without a colon-space — including one with a colon not
followed by a space — is malformed. -/
theorem c3_amended (line : Bytes)
    (hascii : (pyStrip line).all (fun b => decide (b < 128)) = true) :
    ((parseHeaderLine line).isSome = hasColonSpace (pyStrip line))
    ∧ (∀ k v, parseHeaderLine line = some (k, v) →
        pyStrip line = k ++ strBytes ": " ++ v ∧ hasColonSpace k = false) := by
  have hp : parseHeaderLine line = splitFirstColonSpace (pyStrip line) := by
    simp [parseHeaderLine, decodeAscii, hascii]
  constructor
  · rw [hp]
    cases hsp : splitFirstColonSpace (pyStrip line) with
    | none => simp [(splitFirstColonSpace_spec _).1 hsp]
    | some kv =>
      have h2 := ((splitFirstColonSpace_spec (pyStrip line)).2 kv.1 kv.2 (by rw [hsp])).1
      rw [h2, hasColonSpace_append]
      rfl
  · intro k v hs
    rw [hp] at hs
    obtain ⟨heq, hkey⟩ := (splitFirstColonSpace_spec (pyStrip line)).2 k v hs
    have hsb : strBytes ": " = [58, 32] := by decide
    exact ⟨by rw [heq, hsb, List.append_assoc]; rfl, hkey⟩

/-- Witness for C3 at the line `Foo: bar`. -/
theorem c3_amended_witness :
    pyStrip (strBytes "Foo: bar\r\n") = strBytes "Foo" ++ strBytes ": " ++ strBytes "bar"
    ∧ hasColonSpace (strBytes "Foo") = false :=
  (c3_amended (strBytes "Foo: bar\r\n") (by decide)).2 (strBytes "Foo") (strBytes "bar")
    (by decide)

/-! ### Claim C2 -/

/-- C2 counterexample: the claim says that when the stream ends before
Content-Length many body bytes arrive the request is treated as malformed
(400) and not dispatched.  In the source, `rfile.read` simply returns the
fewer bytes available: a PUT declaring `Content-Length: 5` whose stream
ends after two body bytes parses successfully with a two-byte body and is
dispatched normally (here answered 201), with no 400 anywhere. -/
theorem c2_counterexample :
    parsePhase (strBytes "PUT /f HTTP/1.1\r\nContent-Length: 5\r\n\r\nab")
      = ParseResult.ok (strBytes "PUT") (strBytes "/f") (strBytes "HTTP/1.1")
          [(strBytes "Content-Length", strBytes "5")] (some (strBytes "ab")) []
    ∧ pyInt (strBytes "5") = some 5
    ∧ (strBytes "ab").length = 2
    ∧ (handle (strBytes "PUT /f HTTP/1.1\r\nContent-Length: 5\r\n\r\nab") []).1.map
        HTTPResponse.status = [201] := by
  refine ⟨by decide, by decide, by decide, by decide⟩

/-- C2 amended: when parsing succeeds, a body is bound iff a Content-Length
header is present; its value then parses under Python `int` to an integer
no smaller than -1.  For a non-negative value the body is the declared
count of bytes OR FEWER — fewer exactly when the stream is exhausted — so
a short stream yields a dispatched request with a short body, not a 400.
For the value -1 (read-to-EOF in `BufferedReader.read`) the body is the
whole remaining stream.  An unparsable value, or an integer below -1
(whose read raises ValueError), takes the 400 parse-failure path and never
produces a bound body. -/
theorem c2_amended (input m u v : Bytes) (hs : Dict) (cb : Option Bytes) (rest : Bytes)
    (hok : parsePhase input = ParseResult.ok m u v hs cb rest) :
    (dictGet hs (strBytes "Content-Length") = none → cb = none)
    ∧ (∀ s, dictGet hs (strBytes "Content-Length") = some s →
        ∃ n, pyInt s = some n ∧ (-1 : Int) ≤ n ∧ ∃ b, cb = some b
          ∧ (0 ≤ n → b.length ≤ n.toNat ∧ (b.length < n.toNat → rest = []))
          ∧ (n = -1 → rest = [])) := by
  simp only [parsePhase] at hok
  split at hok
  · exact absurd hok (by simp)
  · split at hok
    · split at hok
      · exact absurd hok (by simp)
      · split at hok
        · rename_i hcl
          injection hok with h1 h2 h3 h4 h5 h6
          subst h1; subst h2; subst h3; subst h4; subst h5; subst h6
          exact ⟨fun _ => rfl, fun s hsome => absurd hsome (by rw [hcl]; simp)⟩
        · rename_i clv hcl
          split at hok
          · exact absurd hok (by simp)
          · rename_i n hn
            split at hok
            · exact absurd hok (by simp)
            · rename_i bcontent brest hbr
              injection hok with h1 h2 h3 h4 h5 h6
              subst h1; subst h2; subst h3; subst h4; subst h5; subst h6
              refine ⟨fun habs => absurd habs (by rw [hcl]; simp), fun s hsome => ?_⟩
              rw [hcl] at hsome
              obtain rfl : clv = s := Option.some.inj hsome
              have hge : (-1 : Int) ≤ n := by
                by_contra hlt
                push_neg at hlt
                simp [pyReadBody, hlt] at hbr
              refine ⟨n, hn, hge, bcontent, rfl, ?_, ?_⟩
              · intro hpos
                have hn1 : ¬ n < -1 := by omega
                have hn2 : ¬ n = -1 := by omega
                simp only [pyReadBody] at hbr
                rw [if_neg hn1, if_neg hn2] at hbr
                injection hbr with hbr2
                injection hbr2 with hb1 hb2
                constructor
                · rw [← hb1, List.length_take]; exact min_le_left _ _
                · intro hlt
                  rw [← hb1, List.length_take] at hlt
                  rw [← hb2]
                  exact List.drop_eq_nil_of_le (by omega)
              · intro hm1
                have hn1 : ¬ n < -1 := by omega
                simp only [pyReadBody] at hbr
                rw [if_neg hn1, if_pos hm1] at hbr
                injection hbr with hbr2
                injection hbr2 with hb1 hb2
                exact hb2.symm
    · exact absurd hok (by simp)

/-- Witness for C2 at a request declaring `Content-Length: 3` followed by
six body bytes: the parsed body is the first three bytes. -/
theorem c2_amended_witness :
    ∃ n, pyInt (strBytes "3") = some n ∧ (-1 : Int) ≤ n
      ∧ ∃ b, (some (strBytes "abc") : Option Bytes) = some b
      ∧ (0 ≤ n → b.length ≤ n.toNat ∧ (b.length < n.toNat → strBytes "def" = []))
      ∧ (n = -1 → strBytes "def" = []) :=
  (c2_amended (strBytes "PUT /f HTTP/1.1\r\nContent-Length: 3\r\n\r\nabcdef")
    (strBytes "PUT") (strBytes "/f") (strBytes "HTTP/1.1")
    [(strBytes "Content-Length", strBytes "3")] (some (strBytes "abc")) (strBytes "def")
    (by decide)).2 (strBytes "3") (by decide)

/-! ### Claim C4 -/

/-- C4: in every serialized response the Content-Type and Content-Length
header lines appear iff body bytes follow the header section; the emitted
Content-Length is the exact byte count of those body bytes; a response
without a body contains neither header name anywhere in its bytes. -/
theorem c4_response_headers_iff_body (status_code : Nat) (cb ct : Option Bytes)
    (hcode : status_code ∈ [200, 201, 204, 400, 404, 415, 500, 501]) :
    (hasBody cb = false →
        send_http_response "HTTP/1.1" status_code cb ct
          = statusLineBytes "HTTP/1.1" status_code ++ strBytes "\r\n"
        ∧ occursIn (strBytes "Content-Length") (send_http_response "HTTP/1.1" status_code cb ct)
            = false
        ∧ occursIn (strBytes "Content-Type") (send_http_response "HTTP/1.1" status_code cb ct)
            = false)
    ∧ (∀ b, cb = some b → b ≠ [] →
        send_http_response "HTTP/1.1" status_code cb ct
          = statusLineBytes "HTTP/1.1" status_code
            ++ strBytes "Content-Type: " ++ ctRender ct ++ strBytes "\r\n"
            ++ strBytes "Content-Length: " ++ strBytes (toString b.length) ++ strBytes "\r\n"
            ++ strBytes "\r\n" ++ b) := by
  constructor
  · intro hb
    have hout : send_http_response "HTTP/1.1" status_code cb ct
        = statusLineBytes "HTTP/1.1" status_code ++ strBytes "\r\n" := by
      simp [send_http_response, hb]
    refine ⟨hout, ?_, ?_⟩ <;> rw [hout] <;> fin_cases hcode <;> decide
  · intro b hcb hbne
    subst hcb
    have hb : hasBody (some b) = true := by
      simp [hasBody, hbne]
    simp [send_http_response, hb, bodyBytes, List.append_assoc]

/-- Witness for C4 at a 200 response with a two-byte body. -/
theorem c4_response_headers_iff_body_witness :
    send_http_response "HTTP/1.1" 200 (some [104, 105]) (some (strBytes "text/plain"))
      = statusLineBytes "HTTP/1.1" 200
        ++ strBytes "Content-Type: " ++ ctRender (some (strBytes "text/plain")) ++ strBytes "\r\n"
        ++ strBytes "Content-Length: " ++ strBytes (toString ([104, 105] : Bytes).length)
        ++ strBytes "\r\n" ++ strBytes "\r\n" ++ [104, 105] :=
  (c4_response_headers_iff_body 200 (some [104, 105]) (some (strBytes "text/plain"))
    (by decide)).2 [104, 105] rfl (by decide)

/-- Witness for C8: PUT of two bytes to the nonexistent `/new.bin` on an
empty filesystem, followed by a GET of the written file. -/
theorem c8_put_truncates_witness :
    (handle_put (strBytes "/new.bin") [1, 2] [] []).1.map HTTPResponse.status = [201]
    ∧ fsGet (handle_put (strBytes "/new.bin") [1, 2] [] []).2 (pathOf (strBytes "/new.bin"))
        = some [1, 2]
    ∧ (handle_get (strBytes "/new.bin") (handle_put (strBytes "/new.bin") [1, 2] [] []).2).1
        = [⟨200, some [1, 2], some (contentTypeFor (pySuffix (pathOf (strBytes "/new.bin"))))⟩] := by
  have h := c8_put_truncates (strBytes "/new.bin") [1, 2] [] [] (by decide)
  exact ⟨h.1 (by decide), h.2.2.1, h.2.2.2⟩
